import Mathlib

/-!
Verification of the history-management and response-normalization core of the
CareerIQ career-advisor chatbot (files `chat_manager.py`, `gemini_client.py`,
`config.py`, `prompt_manager.py`, `app.py`), as a shallow embedding: Python
methods that mutate `self` become functions returning the updated state, the
remote Gemini gateway becomes an explicit function argument whose issued
requests are recorded, and raised exceptions become explicit result variants.
-/

namespace CareerIQ

/-- Embeds Python `str.strip()`'s whitespace test (ASCII whitespace characters;
the code never stores non-ASCII whitespace at the boundaries in the scenarios
considered). -/
def isPySpace (c : Char) : Bool :=
  c == ' ' || c == '\t' || c == '\n' || c == '\r' || c == '\x0b' || c == '\x0c'

/-- Embeds Python `str.strip()`: remove leading and trailing whitespace. -/
def pyStrip (s : String) : String :=
  String.mk (((s.data.dropWhile isPySpace).reverse.dropWhile isPySpace).reverse)

/-- Embeds `chat_manager.Role`: the Gemini API expects roles "user" or "model". -/
inductive Role where
  | user
  | model
deriving DecidableEq, Repr

/-- Embeds `chat_manager.MAX_HISTORY_MESSAGES = 8`. -/
def MAX_HISTORY_MESSAGES : Nat := 8

/-- Embeds `chat_manager.Message`: a single message in the conversation. -/
structure Message where
  role : Role
  content : String
deriving DecidableEq, Repr

/-- One part of an API-wire message dict: `\x7b"text": content\x7d`. -/
structure ApiPart where
  text : String
deriving DecidableEq, Repr

/-- The API-wire form produced by `Message.to_dict`. -/
structure ApiMessage where
  role : String
  parts : List ApiPart
deriving DecidableEq, Repr

/-- The display form produced by `Message.to_display_dict`. -/
structure DisplayMessage where
  role : String
  content : String
deriving DecidableEq, Repr

/-- The wire spelling of a role. -/
def Role.toApiString : Role → String
  | .user => "user"
  | .model => "model"

/-- Embeds `Message.to_dict`: converts to the format expected by the Gemini API. -/
def Message.to_dict (m : Message) : ApiMessage :=
  { role := m.role.toApiString, parts := [{ text := m.content }] }

/-- Embeds `Message.to_display_dict`: display role is "user" for user, "assistant"
otherwise. -/
def Message.to_display_dict (m : Message) : DisplayMessage :=
  { role := if m.role = Role.user then "user" else "assistant"
    content := m.content }

/-- Embeds `chat_manager.ChatSession`: full conversation state for one session.
`total_tokens_used` is a Python `int` (it can go negative if a negative count
is recorded), so it is embedded as `Int`. -/
structure ChatSession where
  messages : List Message
  total_user_messages : Nat
  total_tokens_used : Int
deriving DecidableEq, Repr

/-- The dataclass defaults: empty list, both counters zero. -/
def initialSession : ChatSession :=
  { messages := [], total_user_messages := 0, total_tokens_used := 0 }

/-- Embeds `ChatSession._trim_history`: keep only the most recent
`MAX_HISTORY_MESSAGES` messages (`self.messages = self.messages[-MAX:]`). -/
def trim_history (s : ChatSession) : ChatSession :=
  if s.messages.length > MAX_HISTORY_MESSAGES then
    { s with messages := s.messages.drop (s.messages.length - MAX_HISTORY_MESSAGES) }
  else s

/-- Embeds `ChatSession.add_user_message`: skip when the content is empty or
whitespace-only (`not content or not content.strip()`), otherwise append the
stripped content as a user message, bump the user counter, then trim. -/
def add_user_message (s : ChatSession) (content : String) : ChatSession :=
  if content == "" || pyStrip content == "" then s
  else
    trim_history
      { s with
        messages := s.messages ++ [{ role := Role.user, content := pyStrip content }]
        total_user_messages := s.total_user_messages + 1 }

/-- Embeds `ChatSession.add_model_message`: same emptiness rule, role "model", no
counter increment. -/
def add_model_message (s : ChatSession) (content : String) : ChatSession :=
  if content == "" || pyStrip content == "" then s
  else
    trim_history
      { s with
        messages := s.messages ++ [{ role := Role.model, content := pyStrip content }] }

/-- Embeds `ChatSession.get_history_for_api`. -/
def get_history_for_api (s : ChatSession) : List ApiMessage :=
  s.messages.map Message.to_dict

/-- Embeds `ChatSession.get_history_for_display`. -/
def get_history_for_display (s : ChatSession) : List DisplayMessage :=
  s.messages.map Message.to_display_dict

/-- Embeds `ChatSession.update_token_count`: `self.total_tokens_used += tokens`,
with no validation of the argument. -/
def update_token_count (s : ChatSession) (tokens : Int) : ChatSession :=
  { s with total_tokens_used := s.total_tokens_used + tokens }

/-- Embeds `ChatSession.clear`: empty the messages and zero both counters. -/
def ChatSession.clear (s : ChatSession) : ChatSession :=
  { s with messages := [], total_user_messages := 0, total_tokens_used := 0 }

/-- Embeds `ChatSession.is_empty`: `len(self.messages) == 0`. -/
def is_empty (s : ChatSession) : Bool :=
  s.messages.length == 0

/-- Embeds `ChatSession.message_count`. -/
def message_count (s : ChatSession) : Nat :=
  s.messages.length

/-- One append operation on the history (the two mutators of interest). -/
inductive HistOp where
  | user (content : String)
  | model (content : String)
deriving DecidableEq, Repr

/-- Apply one append operation. -/
def applyHistOp (s : ChatSession) : HistOp → ChatSession
  | .user c => add_user_message s c
  | .model c => add_model_message s c

/-- Run a sequence of append operations left to right. -/
def runHistOps (s : ChatSession) (ops : List HistOp) : ChatSession :=
  ops.foldl applyHistOp s

/-- The guard of both append methods, as the code computes it: content is
accepted exactly when it is non-empty after stripping. -/
def acceptedContent (c : String) : Bool :=
  !(c == "" || pyStrip c == "")

/-- Number of accepted user messages in a sequence of operations. -/
def countAcceptedUser (ops : List HistOp) : Nat :=
  ops.countP fun op =>
    match op with
    | .user c => acceptedContent c
    | .model _ => false

/-! ### prompt_manager.py -/

/-- One of the 68-character separator lines of the system prompt, with its
trailing newline. -/
def sepLine : String :=
  String.mk (List.replicate 68 '=') ++ "\n"

/-- Embeds `prompt_manager.SYSTEM_PROMPT`: the triple-quoted literal followed by
`.strip()`. -/
def SYSTEM_PROMPT : String :=
  "You are CareerIQ, an expert AI Career Advisor and Resume Reviewer with over\n" ++
  "15 years of experience in career coaching, talent acquisition, HR strategy,\n" ++
  "and professional development across industries including Technology,\n" ++
  "Finance, Healthcare, Marketing, and Engineering.\n" ++
  "\n" ++
  "Your role is to provide EDUCATIONAL, STRATEGIC, and ACTIONABLE career guidance.\n" ++
  "You are not a recruiter, legal advisor, or financial planner.\n" ++
  "\n" ++
  sepLine ++
  "GENERAL CAREER GUIDANCE MODE\n" ++
  sepLine ++
  "\n" ++
  "You help users with:\n" ++
  "- Career path exploration and decision-making\n" ++
  "- Resume and LinkedIn profile review (text-based only)\n" ++
  "- Job search strategy and professional networking\n" ++
  "- Interview preparation (behavioral, technical, case)\n" ++
  "- Skill gap analysis and learning roadmaps\n" ++
  "- Career pivots and role/industry transitions\n" ++
  "- Salary negotiation strategy (high-level, non-legal)\n" ++
  "- Workplace growth, promotions, and performance strategy\n" ++
  "\n" ++
  "RESPONSE STYLE:\n" ++
  "1. Be warm, professional, and encouraging — like a trusted career mentor.\n" ++
  "2. Use structured formatting: headings, bullet points, and numbered lists.\n" ++
  "3. Provide clear, actionable advice — avoid vague or generic statements.\n" ++
  "4. Ask at most ONE clarifying question if absolutely required.\n" ++
  "5. Be honest and realistic without discouraging the user.\n" ++
  "6. Avoid emojis except in the initial greeting.\n" ++
  "\n" ++
  "STRICT LIMITATIONS:\n" ++
  "- Discuss ONLY career-related topics.\n" ++
  "- Do NOT fabricate experience, statistics, or market data.\n" ++
  "- Do NOT provide legal or medical advice.\n" ++
  "- Do NOT write full resumes or cover letters from scratch unless explicitly asked.\n" ++
  "- If information is insufficient, state that clearly instead of guessing.\n" ++
  "\n" ++
  sepLine ++
  "RESUME REVIEW MODE (CRITICAL — FOLLOW STRICTLY)\n" ++
  sepLine ++
  "\n" ++
  "When the user provides resume content OR asks for resume feedback,\n" ++
  "you MUST switch to Resume Review Mode and follow ALL rules below.\n" ++
  "\n" ++
  "MANDATORY RESPONSE STRUCTURE:\n" ++
  "Always organize the response using these numbered sections:\n" ++
  "\n" ++
  "1. Overall Evaluation\n" ++
  "2. Key Strengths\n" ++
  "3. Section-by-Section Feedback\n" ++
  "   - Professional Summary\n" ++
  "   - Skills\n" ++
  "   - Experience / Projects\n" ++
  "   - Education (if present)\n" ++
  "4. ATS & Formatting Improvements\n" ++
  "5. Actionable Next Steps\n" ++
  "\n" ++
  "DO NOT skip any section unless it is genuinely missing from the resume.\n" ++
  "\n" ++
  "QUALITY REQUIREMENTS:\n" ++
  "- Provide complete, end-to-end feedback.\n" ++
  "- Do NOT stop mid-section or mid-sentence.\n" ++
  "- If the resume is long, prioritize finishing all sections clearly.\n" ++
  "\n" ++
  "ACTIONABILITY RULE:\n" ++
  "- Every criticism must include a concrete suggestion or example fix.\n" ++
  "- Rewrite weak bullet points into stronger versions when helpful.\n" ++
  "- Suggest measurable impact (%s, numbers, outcomes) where missing.\n" ++
  "\n" ++
  "ATS OPTIMIZATION:\n" ++
  "- Comment on keyword relevance and placement.\n" ++
  "- Identify missing role-specific keywords.\n" ++
  "- Warn against ATS-unfriendly formatting (icons, tables, graphics, symbols).\n" ++
  "\n" ++
  "ROLE ALIGNMENT:\n" ++
  "- Tailor feedback to the target role if mentioned (e.g., Data Analyst).\n" ++
  "- If no role is specified, assume entry-level to early-career tech/data roles.\n" ++
  "\n" ++
  "ENDING RULE (MANDATORY):\n" ++
  "End with:\n" ++
  "- A short encouraging summary (2–3 lines)\n" ++
  "- ONE clear follow-up question asking what the user wants next\n" ++
  "  (e.g., rewrite bullets, tailor for a job, LinkedIn optimization)\n" ++
  "\n" ++
  sepLine ++
  "YOUR GOAL\n" ++
  sepLine ++
  "\n" ++
  "After every interaction, the user should feel:\n" ++
  "- More confident\n" ++
  "- More informed\n" ++
  "- Clear on their next concrete career action\n" ++
  "\n" ++
  "Never sound like a generic chatbot.\n" ++
  "Always think like a senior career coach and hiring manager."

/-- Embeds `prompt_manager.get_system_prompt`. -/
def get_system_prompt : String :=
  SYSTEM_PROMPT

/-- Embeds `prompt_manager.get_fallback_message`: the fixed fallback string returned
when the API call fails. -/
def get_fallback_message : String :=
  "⚠️ I\x27m having trouble responding right now.\n" ++
  "Please try again in a moment. If the issue persists,\n" ++
  "check that your API key is configured correctly."

/-! ### config.py -/

/-- The error raised by `config.py` when the credential is missing: Python
`ValueError("GEMINI_API_KEY is not set in .env")`; the spec calls this
condition `ConfigurationError`. -/
inductive ConfigError where
  | missingApiKey (message : String)
deriving DecidableEq, Repr

/-- Embeds `config.py` resolved values (TEMPERATURE and MAX_OUTPUT_TOKENS are
generation tuning only and unused by the claims). -/
structure Config where
  gemini_api_key : String
  model_name : String
deriving DecidableEq, Repr

/-- Embeds `config.py` at import: `GEMINI_API_KEY = os.getenv("GEMINI_API_KEY")`,
`MODEL_NAME = os.getenv("GEMINI_MODEL_NAME", "gemini-2.5-flash")`, and
`if not GEMINI_API_KEY: raise ValueError(...)` (Python falsiness: `None` or
the empty string). -/
def load_config (env_api_key : Option String) (env_model_name : Option String) :
    Except ConfigError Config :=
  match env_api_key with
  | none => .error (.missingApiKey "GEMINI_API_KEY is not set in .env")
  | some key =>
    if key == "" then .error (.missingApiKey "GEMINI_API_KEY is not set in .env")
    else .ok { gemini_api_key := key, model_name := env_model_name.getD "gemini-2.5-flash" }

/-! ### gemini_client.py -/

/-- One part of a Gemini candidate's content. -/
structure Part where
  text : String
deriving DecidableEq, Repr

/-- A candidate's content object (`candidate.content` can be absent/falsy). -/
structure Content where
  parts : List Part
deriving DecidableEq, Repr

/-- A response candidate; `finish_reason` holds the Python `str()` image of
the finish reason enum as tested by the code. -/
structure Candidate where
  finish_reason : String
  content : Option Content
deriving DecidableEq, Repr

/-- Embeds `response.usage_metadata` when present. -/
structure UsageMetadata where
  total_token_count : Nat
deriving DecidableEq, Repr

/-- The shape of a successful Gemini API response as accessed by the code. -/
structure GeminiResponse where
  candidates : List Candidate
  usage_metadata : Option UsageMetadata
deriving DecidableEq, Repr

/-- The categorized failures the `except` clauses of `send_message`
distinguish; `other` is the final `except Exception` (network errors and any
uncategorized exception land there). -/
inductive GatewayFailure where
  | invalidArgument
  | resourceExhausted
  | permissionDenied
  | serviceUnavailable
  | other
deriving DecidableEq, Repr

/-- What the remote gateway does on one call: return a response, or raise. -/
inductive GatewayResult where
  | success (response : GeminiResponse)
  | failure (f : GatewayFailure)
deriving Repr

/-- The outbound payload of one gateway call: the model's fixed system
instruction, the serialized history handed to `start_chat`, and the new user
message sent via `chat.send_message`. -/
structure GatewayRequest where
  system_instruction : String
  history : List ApiMessage
  new_message : String
deriving DecidableEq, Repr

/-- Helper for Python's `"SAFETY" in finish_reason`: substring test on
character lists. -/
def listContainsSub (needle : List Char) : List Char → Bool
  | [] => needle.isEmpty
  | c :: rest => needle.isPrefixOf (c :: rest) || listContainsSub needle rest

/-- Python's `needle in hay` on strings. -/
def strContains (hay needle : String) : Bool :=
  listContainsSub needle.data hay.data

/-- Embeds `GeminiClient._extract_response_text`: no candidates → a fixed apology;
a candidate whose finish reason mentions SAFETY → a distinct fixed apology;
otherwise the first part's text of the first candidate, or a third fixed text
when content/parts are missing. The text is returned as-is, without
stripping. -/
def extract_response_text (r : GeminiResponse) : String :=
  match r.candidates with
  | [] =>
    "I wasn\x27t able to generate a response for that message. " ++
    "Could you try rephrasing it?"
  | candidate :: _ =>
    if strContains candidate.finish_reason "SAFETY" then
      "I\x27m not able to respond to that particular message. " ++
      "Please try asking something else about your career!"
    else
      match candidate.content with
      | some content =>
        match content.parts with
        | part :: _ => part.text
        | [] => "I didn\x27t generate a response. Please try again."
      | none => "I didn\x27t generate a response. Please try again."

/-- The "no candidates" apology of `_extract_response_text`. -/
def NO_CANDIDATES_MESSAGE : String :=
  extract_response_text { candidates := [], usage_metadata := none }

/-- The safety-suppression apology of `_extract_response_text`. -/
def SAFETY_BLOCKED_MESSAGE : String :=
  extract_response_text
    { candidates := [{ finish_reason := "FinishReason.SAFETY", content := none }]
      usage_metadata := none }

/-- Embeds `GeminiClient._extract_token_count`: the reported
`usage_metadata.total_token_count` when usage metadata is present (`or 0` is
the identity on a non-negative count), else 0. -/
def extract_token_count (r : GeminiResponse) : Nat :=
  match r.usage_metadata with
  | some u => u.total_token_count
  | none => 0

/-- The text returned by each `except` clause of `send_message`. -/
def failure_reply : GatewayFailure → String
  | .invalidArgument =>
    "⚠️ There was an issue with the request format. " ++
    "Please try rephrasing your message."
  | .resourceExhausted =>
    "⚠️ I\x27ve hit my API usage limit for now. " ++
    "Please wait a moment and try again, or check your API quota."
  | .permissionDenied =>
    "⚠️ There\x27s an authentication issue with the API key. " ++
    "Please verify your GEMINI_API_KEY in the .env file."
  | .serviceUnavailable => get_fallback_message
  | .other => get_fallback_message

/-- The observable outcome of one `GeminiClient.send_message` call: the
session state after the call (the method only reads the session), the
returned `(response_text, tokens_used)` pair, and the gateway requests
issued during the call. -/
structure SendOutcome where
  session_after : ChatSession
  reply : String
  tokens_used : Nat
  requests : List GatewayRequest

/-- Embeds `GeminiClient.send_message`: serialize the session's history via
`get_history_for_api`, start a chat with that history on the model carrying
the fixed system instruction, send the new user message (one gateway call),
and normalize the result; every raised failure is caught and mapped to
`(failure_reply, 0)`. -/
def send_message (session : ChatSession) (user_message : String)
    (gateway : GatewayRequest → GatewayResult) : SendOutcome :=
  let req : GatewayRequest :=
    { system_instruction := get_system_prompt
      history := get_history_for_api session
      new_message := user_message }
  match gateway req with
  | .success response =>
    { session_after := session
      reply := extract_response_text response
      tokens_used := extract_token_count response
      requests := [req] }
  | .failure f =>
    { session_after := session
      reply := failure_reply f
      tokens_used := 0
      requests := [req] }

/-- Embeds `GeminiClient.__init__` reached through `config.py`: construction resolves
the credential and model identifier from the environment, failing before any
gateway interaction when the credential is absent or empty (the construction
takes no gateway at all). -/
structure GeminiClientState where
  api_key : String
  model_name : String
  system_instruction : String
deriving DecidableEq, Repr

/-- Constructing the client: importing `config` raises on a missing/empty
credential; otherwise the client holds the resolved key, model name and the
fixed system instruction. -/
def init_gemini_client (env_api_key : Option String) (env_model_name : Option String) :
    Except ConfigError GeminiClientState :=
  match load_config env_api_key env_model_name with
  | .error e => .error e
  | .ok cfg =>
    .ok { api_key := cfg.gemini_api_key
          model_name := cfg.model_name
          system_instruction := get_system_prompt }

/-! ### app.py -/

/-- Embeds `app.handle_user_message`: append the user text to the session, call
`send_message` with that same session, append the reply, record the tokens.
Returns the final session and the gateway requests issued. -/
def handle_user_message (session : ChatSession) (text : String)
    (gateway : GatewayRequest → GatewayResult) : ChatSession × List GatewayRequest :=
  let session1 := add_user_message session text
  let out := send_message session1 text gateway
  let session2 := add_model_message out.session_after out.reply
  let session3 := update_token_count session2 (out.tokens_used : Int)
  (session3, out.requests)

/-! ### Concrete gateway responses used as test inputs -/

/-- A successful response whose candidate text carries surrounding
whitespace. -/
def c3response : GeminiResponse :=
  { candidates :=
      [{ finish_reason := "FinishReason.STOP"
         content := some { parts := [{ text := "  Hello  " }] } }]
    usage_metadata := some { total_token_count := 42 } }

/-- A successful response with text "Hello" and 42 reported tokens. -/
def helloResponse : GeminiResponse :=
  { candidates :=
      [{ finish_reason := "FinishReason.STOP"
         content := some { parts := [{ text := "Hello" }] } }]
    usage_metadata := some { total_token_count := 42 } }

/-- A candidate-less (blocked) response that still reports 7 usage tokens. -/
def blockedWithUsage : GeminiResponse :=
  { candidates := [], usage_metadata := some { total_token_count := 7 } }

/-! ## Helper lemmas -/

/-- Trimming leaves at most `MAX_HISTORY_MESSAGES` messages, and leaves
shorter histories untouched. -/
theorem trim_history_length (s : ChatSession) :
    (trim_history s).messages.length = min s.messages.length MAX_HISTORY_MESSAGES := by
  unfold trim_history
  split
  · simp only [List.length_drop]
    omega
  · omega

/-- Trimming a history already within capacity is the identity. -/
theorem trim_history_of_le (s : ChatSession) (h : s.messages.length ≤ MAX_HISTORY_MESSAGES) :
    trim_history s = s := by
  unfold trim_history
  rw [if_neg]
  omega

/-- Content that is non-empty after stripping passes the append guard. -/
theorem accept_guard_false (c : String) (h : pyStrip c ≠ "") :
    (c == "" || pyStrip c == "") = false := by
  have hc : c ≠ "" := fun hc => h (by rw [hc]; rfl)
  simp [hc, h]

/-- On accepted content, `add_user_message` appends the stripped message,
bumps the counter, and trims. -/
theorem add_user_accepted (s : ChatSession) (c : String) (h : pyStrip c ≠ "") :
    add_user_message s c =
      trim_history
        { s with
          messages := s.messages ++ [{ role := Role.user, content := pyStrip c }]
          total_user_messages := s.total_user_messages + 1 } := by
  unfold add_user_message
  rw [accept_guard_false c h]
  rfl

/-- Every single append preserves the capacity bound. -/
theorem applyHistOp_length_le (s : ChatSession) (op : HistOp)
    (h : s.messages.length ≤ MAX_HISTORY_MESSAGES) :
    (applyHistOp s op).messages.length ≤ MAX_HISTORY_MESSAGES := by
  cases op with
  | user c =>
    show (add_user_message s c).messages.length ≤ MAX_HISTORY_MESSAGES
    unfold add_user_message
    split
    · exact h
    · rw [trim_history_length]
      exact min_le_right _ _
  | model c =>
    show (add_model_message s c).messages.length ≤ MAX_HISTORY_MESSAGES
    unfold add_model_message
    split
    · exact h
    · rw [trim_history_length]
      exact min_le_right _ _

/-- The capacity bound is preserved by any sequence of appends. -/
theorem runHistOps_length_le (ops : List HistOp) :
    ∀ s : ChatSession, s.messages.length ≤ MAX_HISTORY_MESSAGES →
      (runHistOps s ops).messages.length ≤ MAX_HISTORY_MESSAGES := by
  induction ops with
  | nil => intro s h; exact h
  | cons op rest ih =>
    intro s h
    exact ih (applyHistOp s op) (applyHistOp_length_le s op h)

/-- Nine accepted user appends from the empty session leave exactly the 2nd
through 9th messages, in order. -/
theorem nine_accepted_user_appends_fifo (c1 c2 c3 c4 c5 c6 c7 c8 c9 : String)
    (h1 : pyStrip c1 ≠ "") (h2 : pyStrip c2 ≠ "") (h3 : pyStrip c3 ≠ "")
    (h4 : pyStrip c4 ≠ "") (h5 : pyStrip c5 ≠ "") (h6 : pyStrip c6 ≠ "")
    (h7 : pyStrip c7 ≠ "") (h8 : pyStrip c8 ≠ "") (h9 : pyStrip c9 ≠ "") :
    (runHistOps initialSession
        ([c1, c2, c3, c4, c5, c6, c7, c8, c9].map HistOp.user)).messages
      = ([c2, c3, c4, c5, c6, c7, c8, c9].map
          fun c => Message.mk Role.user (pyStrip c)) := by
  simp only [List.map, runHistOps, List.foldl, applyHistOp]
  rw [add_user_accepted _ _ h1, trim_history_of_le _ (by simp [initialSession, MAX_HISTORY_MESSAGES])]
  rw [add_user_accepted _ _ h2, trim_history_of_le _ (by simp [initialSession, MAX_HISTORY_MESSAGES])]
  rw [add_user_accepted _ _ h3, trim_history_of_le _ (by simp [initialSession, MAX_HISTORY_MESSAGES])]
  rw [add_user_accepted _ _ h4, trim_history_of_le _ (by simp [initialSession, MAX_HISTORY_MESSAGES])]
  rw [add_user_accepted _ _ h5, trim_history_of_le _ (by simp [initialSession, MAX_HISTORY_MESSAGES])]
  rw [add_user_accepted _ _ h6, trim_history_of_le _ (by simp [initialSession, MAX_HISTORY_MESSAGES])]
  rw [add_user_accepted _ _ h7, trim_history_of_le _ (by simp [initialSession, MAX_HISTORY_MESSAGES])]
  rw [add_user_accepted _ _ h8, trim_history_of_le _ (by simp [initialSession, MAX_HISTORY_MESSAGES])]
  rw [add_user_accepted _ _ h9]
  unfold trim_history
  simp [initialSession, MAX_HISTORY_MESSAGES]

/-- Trimming never changes the user-message counter. -/
theorem trim_history_total_user (s : ChatSession) :
    (trim_history s).total_user_messages = s.total_user_messages := by
  unfold trim_history
  split <;> rfl

/-- Trimming never changes the token accumulator. -/
theorem trim_history_total_tokens (s : ChatSession) :
    (trim_history s).total_tokens_used = s.total_tokens_used := by
  unfold trim_history
  split <;> rfl

/-- A user append increments the counter exactly when the content is
accepted. -/
theorem add_user_message_total_user (s : ChatSession) (c : String) :
    (add_user_message s c).total_user_messages
      = s.total_user_messages + (if acceptedContent c then 1 else 0) := by
  unfold add_user_message acceptedContent
  cases hb : (c == "" || pyStrip c == "") with
  | true => simp [hb]
  | false => simp [hb, trim_history_total_user]

/-- A model append never changes the user-message counter. -/
theorem add_model_message_total_user (s : ChatSession) (c : String) :
    (add_model_message s c).total_user_messages = s.total_user_messages := by
  unfold add_model_message
  split
  · rfl
  · rw [trim_history_total_user]

/-- Unfolding the accepted-user count over a user append. -/
theorem countAcceptedUser_cons_user (c : String) (rest : List HistOp) :
    countAcceptedUser (HistOp.user c :: rest)
      = countAcceptedUser rest + (if acceptedContent c then 1 else 0) := by
  unfold countAcceptedUser
  rw [List.countP_cons]

/-- Unfolding the accepted-user count over a model append. -/
theorem countAcceptedUser_cons_model (c : String) (rest : List HistOp) :
    countAcceptedUser (HistOp.model c :: rest) = countAcceptedUser rest := by
  unfold countAcceptedUser
  rw [List.countP_cons]
  simp

/-- The user-message counter after a sequence of appends is the starting
counter plus the number of accepted user appends. -/
theorem runHistOps_total_user (ops : List HistOp) :
    ∀ s : ChatSession,
      (runHistOps s ops).total_user_messages
        = s.total_user_messages + countAcceptedUser ops := by
  induction ops with
  | nil => intro s; simp [runHistOps, countAcceptedUser]
  | cons op rest ih =>
    intro s
    cases op with
    | user c =>
      rw [show runHistOps s (HistOp.user c :: rest)
            = runHistOps (add_user_message s c) rest from rfl,
          ih, countAcceptedUser_cons_user, add_user_message_total_user]
      omega
    | model c =>
      rw [show runHistOps s (HistOp.model c :: rest)
            = runHistOps (add_model_message s c) rest from rfl,
          ih, countAcceptedUser_cons_model, add_model_message_total_user]

/-- No single append ever decreases the user-message counter. -/
theorem applyHistOp_total_user_mono (s : ChatSession) (op : HistOp) :
    s.total_user_messages ≤ (applyHistOp s op).total_user_messages := by
  cases op with
  | user c =>
    rw [show applyHistOp s (HistOp.user c) = add_user_message s c from rfl,
        add_user_message_total_user]
    omega
  | model c =>
    rw [show applyHistOp s (HistOp.model c) = add_model_message s c from rfl,
        add_model_message_total_user]

/-! ## Claim theorems -/

/-- Claim C1: for every sequence of appends on a session with capacity 8,
`len(entries) ≤ capacity` holds after every operation (every sequence from
the empty session stays within bound, and one append from any in-bound state
lands in bound), and eviction is FIFO: appending capacity+1 accepted user
messages from empty leaves exactly the 2nd through 9th messages in insertion
order, the oldest dropped and never the newest. -/
theorem C1_capacity_bound_and_fifo_eviction :
    (∀ ops : List HistOp,
        (runHistOps initialSession ops).messages.length ≤ MAX_HISTORY_MESSAGES) ∧
    (∀ (s : ChatSession) (op : HistOp),
        s.messages.length ≤ MAX_HISTORY_MESSAGES →
        (applyHistOp s op).messages.length ≤ MAX_HISTORY_MESSAGES) ∧
    (∀ c1 c2 c3 c4 c5 c6 c7 c8 c9 : String,
        pyStrip c1 ≠ "" → pyStrip c2 ≠ "" → pyStrip c3 ≠ "" →
        pyStrip c4 ≠ "" → pyStrip c5 ≠ "" → pyStrip c6 ≠ "" →
        pyStrip c7 ≠ "" → pyStrip c8 ≠ "" → pyStrip c9 ≠ "" →
        (runHistOps initialSession
            ([c1, c2, c3, c4, c5, c6, c7, c8, c9].map HistOp.user)).messages
          = ([c2, c3, c4, c5, c6, c7, c8, c9].map
              fun c => Message.mk Role.user (pyStrip c))) := by
  refine ⟨?_, applyHistOp_length_le, nine_accepted_user_appends_fifo⟩
  intro ops
  exact runHistOps_length_le ops initialSession (by simp [initialSession])

/-- Witness for C1 at nine concrete one-letter messages. -/
theorem C1_capacity_bound_and_fifo_eviction_witness :
    ((pyStrip "a" ≠ "" ∧ pyStrip "b" ≠ "" ∧ pyStrip "c" ≠ "") ∧
     (pyStrip "d" ≠ "" ∧ pyStrip "e" ≠ "" ∧ pyStrip "f" ≠ "") ∧
     (pyStrip "g" ≠ "" ∧ pyStrip "h" ≠ "" ∧ pyStrip "i" ≠ "")) ∧
    (runHistOps initialSession
        (["a", "b", "c", "d", "e", "f", "g", "h", "i"].map HistOp.user)).messages
      = (["b", "c", "d", "e", "f", "g", "h", "i"].map
          fun c => Message.mk Role.user (pyStrip c)) := by
  refine ⟨⟨⟨by decide, by decide, by decide⟩, ⟨by decide, by decide, by decide⟩,
          ⟨by decide, by decide, by decide⟩⟩, ?_⟩
  exact C1_capacity_bound_and_fifo_eviction.2.2 "a" "b" "c" "d" "e" "f" "g" "h" "i"
    (by decide) (by decide) (by decide) (by decide) (by decide)
    (by decide) (by decide) (by decide) (by decide)

/-- Counterexample to claim C2: a malformed-request (InvalidArgument) gateway
failure is normalized to a category-specific text that differs from the
fallback text, so the caller-visible output is not identical for every
failure subtype. -/
theorem C2_categorized_failure_text_counterexample :
    (send_message initialSession "hi"
        (fun _ => GatewayResult.failure GatewayFailure.invalidArgument)).reply
      = failure_reply GatewayFailure.invalidArgument ∧
    (send_message initialSession "hi"
        (fun _ => GatewayResult.failure GatewayFailure.invalidArgument)).tokens_used = 0 ∧
    failure_reply GatewayFailure.invalidArgument ≠ get_fallback_message :=
  ⟨rfl, rfl, by decide⟩

/-- Claim C2 as amended: every gateway failure is caught and normalized to a
pair of a fixed per-category text and token count 0 (no exception escapes
`send_message`); the service-unavailable category and every uncategorized
exception — but not the malformed-request, quota, and authentication
categories — yield exactly the fallback text. -/
theorem C2_failure_normalization_amended (s : ChatSession) (m : String)
    (f : GatewayFailure) :
    (send_message s m (fun _ => GatewayResult.failure f)).reply = failure_reply f ∧
    (send_message s m (fun _ => GatewayResult.failure f)).tokens_used = 0 ∧
    failure_reply GatewayFailure.serviceUnavailable = get_fallback_message ∧
    failure_reply GatewayFailure.other = get_fallback_message :=
  ⟨rfl, rfl, rfl, rfl⟩

/-- Counterexample to claim C3: a successful response whose candidate text is
"  Hello  " with 42 reported tokens is normalized to the pair with the raw,
untrimmed text — the returned text is not the trimmed candidate text. -/
theorem C3_untrimmed_text_counterexample :
    (send_message initialSession "hi"
        (fun _ => GatewayResult.success c3response)).reply = "  Hello  " ∧
    (send_message initialSession "hi"
        (fun _ => GatewayResult.success c3response)).tokens_used = 42 ∧
    pyStrip "  Hello  " ≠ "  Hello  " :=
  ⟨rfl, rfl, by decide⟩

/-- Claim C3 as amended: for every successful response whose best candidate
carries usable text, `send_message` returns the pair of the candidate's first
part text exactly as reported (not trimmed) and the reported token count,
which defaults to 0 when usage metadata is absent rather than failing. -/
theorem C3_success_normalization_amended (s : ChatSession) (m : String)
    (r : GeminiResponse) (cand : Candidate) (ctail : List Candidate)
    (co : Content) (p : Part) (ptail : List Part)
    (hc : r.candidates = cand :: ctail)
    (hs : strContains cand.finish_reason "SAFETY" = false)
    (hco : cand.content = some co)
    (hp : co.parts = p :: ptail) :
    (send_message s m (fun _ => GatewayResult.success r)).reply = p.text ∧
    (∀ u : UsageMetadata, r.usage_metadata = some u →
        (send_message s m (fun _ => GatewayResult.success r)).tokens_used
          = u.total_token_count) ∧
    (r.usage_metadata = none →
        (send_message s m (fun _ => GatewayResult.success r)).tokens_used = 0) := by
  refine ⟨?_, ?_, ?_⟩
  · show extract_response_text r = p.text
    unfold extract_response_text
    rw [hc]
    simp [hs, hco, hp]
  · intro u hu
    show extract_token_count r = u.total_token_count
    unfold extract_token_count
    rw [hu]
  · intro hn
    show extract_token_count r = 0
    unfold extract_token_count
    rw [hn]

/-- Witness for the amended C3: a success with text "Hello" and 42 reported
tokens yields exactly the pair of "Hello" and 42. -/
theorem C3_success_normalization_amended_witness :
    (send_message initialSession "Hello there"
        (fun _ => GatewayResult.success helloResponse)).reply = "Hello" ∧
    (send_message initialSession "Hello there"
        (fun _ => GatewayResult.success helloResponse)).tokens_used = 42 := by
  have h := C3_success_normalization_amended initialSession "Hello there" helloResponse
    { finish_reason := "FinishReason.STOP"
      content := some { parts := [{ text := "Hello" }] } } []
    { parts := [{ text := "Hello" }] } { text := "Hello" } []
    rfl (by decide) rfl rfl
  exact ⟨h.1, h.2.1 { total_token_count := 42 } rfl⟩

/-- Counterexample to claim C4: a zero-candidate success that still reports 7
usage tokens is normalized to the no-candidates apology together with token
count 7, not 0 — the token count is not forced to zero on suppression. -/
theorem C4_blocked_tokens_counterexample :
    (send_message initialSession "hi"
        (fun _ => GatewayResult.success blockedWithUsage)).reply = NO_CANDIDATES_MESSAGE ∧
    (send_message initialSession "hi"
        (fun _ => GatewayResult.success blockedWithUsage)).tokens_used = 7 ∧
    (send_message initialSession "hi"
        (fun _ => GatewayResult.success blockedWithUsage)).tokens_used ≠ 0 :=
  ⟨rfl, rfl, by decide⟩

/-- Claim C4 as amended: a zero-candidate success is normalized to the
specific no-candidates apology text and a safety-suppressed candidate to a
distinct specific apology text; the two texts differ from each other and from
the failure fallback text; but the accompanying token count is the count
extracted from usage metadata (0 when the metadata is absent), not forced to
0. -/
theorem C4_apology_texts_amended (s : ChatSession) (m : String) (r : GeminiResponse) :
    (r.candidates = [] →
        (send_message s m (fun _ => GatewayResult.success r)).reply
          = NO_CANDIDATES_MESSAGE) ∧
    (∀ (cand : Candidate) (ctail : List Candidate),
        r.candidates = cand :: ctail →
        strContains cand.finish_reason "SAFETY" = true →
        (send_message s m (fun _ => GatewayResult.success r)).reply
          = SAFETY_BLOCKED_MESSAGE) ∧
    NO_CANDIDATES_MESSAGE ≠ SAFETY_BLOCKED_MESSAGE ∧
    NO_CANDIDATES_MESSAGE ≠ get_fallback_message ∧
    SAFETY_BLOCKED_MESSAGE ≠ get_fallback_message ∧
    (r.usage_metadata = none →
        (send_message s m (fun _ => GatewayResult.success r)).tokens_used = 0) := by
  refine ⟨?_, ?_, by decide, by decide, by decide, ?_⟩
  · intro hnil
    show extract_response_text r = NO_CANDIDATES_MESSAGE
    unfold extract_response_text
    rw [hnil]
    rfl
  · intro cand ctail hc hs
    show extract_response_text r = SAFETY_BLOCKED_MESSAGE
    unfold extract_response_text
    rw [hc]
    simp [hs]
    rfl
  · intro hn
    show extract_token_count r = 0
    unfold extract_token_count
    rw [hn]

/-- Witness for the amended C4 at a concrete candidate-less response without
usage metadata. -/
theorem C4_apology_texts_amended_witness :
    (send_message initialSession "hi"
        (fun _ => GatewayResult.success { candidates := [], usage_metadata := none })).reply
      = NO_CANDIDATES_MESSAGE ∧
    (send_message initialSession "hi"
        (fun _ => GatewayResult.success { candidates := [], usage_metadata := none })).tokens_used
      = 0 := by
  have h := C4_apology_texts_amended initialSession "hi"
    { candidates := [], usage_metadata := none }
  exact ⟨h.1 rfl, h.2.2.2.2.2 rfl⟩

/-- Claim C5 (code bug evidence): `send_message` itself never mutates the
session and issues exactly one gateway request built from the fixed system
instruction, the serialized session history and the new user text — but in
the integrated flow `handle_user_message` appends the user text to the
session before calling `send_message`, so on the failing input "hi" the
single outbound request already carries the new user text inside its history
while also sending it as the new message, contradicting the claimed
"excluding the new user message" composition and the code's own comment. -/
theorem C5_user_text_duplicated_in_payload :
    (handle_user_message initialSession "hi"
        (fun _ => GatewayResult.failure GatewayFailure.other)).2
      = [{ system_instruction := get_system_prompt
           history := [{ role := "user", parts := [{ text := "hi" }] }]
           new_message := "hi" }] ∧
    (∀ (s : ChatSession) (m : String) (g : GatewayRequest → GatewayResult),
        (send_message s m g).session_after = s ∧
        (send_message s m g).requests
          = [{ system_instruction := get_system_prompt
               history := get_history_for_api s
               new_message := m }]) := by
  refine ⟨rfl, ?_⟩
  intro s m g
  unfold send_message
  cases hg : g { system_instruction := get_system_prompt
                 history := get_history_for_api s
                 new_message := m } <;> simp [hg]

/-- Claim C6: after any sequence of appends from the empty session the
user-message counter equals the number of accepted user appends, independent
of eviction; a model append never changes it; it is monotonically
non-decreasing under appends and reset only by an explicit clear. -/
theorem C6_user_message_count :
    (∀ ops : List HistOp,
        (runHistOps initialSession ops).total_user_messages = countAcceptedUser ops) ∧
    (∀ (s : ChatSession) (c : String),
        (add_model_message s c).total_user_messages = s.total_user_messages) ∧
    (∀ (s : ChatSession) (op : HistOp),
        s.total_user_messages ≤ (applyHistOp s op).total_user_messages) ∧
    (∀ s : ChatSession, (ChatSession.clear s).total_user_messages = 0) := by
  refine ⟨?_, add_model_message_total_user, applyHistOp_total_user_mono, fun s => rfl⟩
  intro ops
  rw [runHistOps_total_user]
  show 0 + countAcceptedUser ops = countAcceptedUser ops
  omega

/-- Claim C7: appending an empty or whitespace-only string is a no-op for
both append operations — the session (entries and both counters) is
unchanged and no failure is signalled. -/
theorem C7_empty_append_noop (s : ChatSession) (c : String) (h : pyStrip c = "") :
    add_user_message s c = s ∧ add_model_message s c = s := by
  have hg : (c == "" || pyStrip c == "") = true := by simp [h]
  unfold add_user_message add_model_message
  rw [hg]
  exact ⟨rfl, rfl⟩

/-- Witness for C7 at a concrete whitespace-only string. -/
theorem C7_empty_append_noop_witness :
    pyStrip " \t\n " = "" ∧
    add_user_message initialSession " \t\n " = initialSession ∧
    add_model_message initialSession " \t\n " = initialSession := by
  refine ⟨by decide, ?_, ?_⟩
  · exact (C7_empty_append_noop initialSession " \t\n " (by decide)).1
  · exact (C7_empty_append_noop initialSession " \t\n " (by decide)).2

/-- Counterexample to claim C8: recording a negative token count of -5 on a
session with 10 accumulated tokens does not fail with any InvalidArgument
condition — `update_token_count` is total and simply adds, leaving the
decreased total 5. -/
theorem C8_negative_tokens_counterexample :
    (update_token_count
        { messages := [], total_user_messages := 0, total_tokens_used := 10 }
        (-5)).total_tokens_used = 5 ∧
    (update_token_count
        { messages := [], total_user_messages := 0, total_tokens_used := 10 }
        (-5)).total_tokens_used
      < ({ messages := [], total_user_messages := 0, total_tokens_used := 10 } :
          ChatSession).total_tokens_used :=
  ⟨by decide, by decide⟩

/-- Claim C8 as amended: `update_token_count` performs no validation and adds
any integer to the accumulator; whenever the recorded count is non-negative
(as every count produced by `extract_token_count` is), the accumulator is
monotonically non-decreasing. -/
theorem C8_token_accumulation_amended (s : ChatSession) (n : Int) (h : 0 ≤ n) :
    (update_token_count s n).total_tokens_used = s.total_tokens_used + n ∧
    s.total_tokens_used ≤ (update_token_count s n).total_tokens_used := by
  refine ⟨rfl, ?_⟩
  show s.total_tokens_used ≤ s.total_tokens_used + n
  omega

/-- Witness for the amended C8 at the concrete count 7. -/
theorem C8_token_accumulation_amended_witness :
    (0 : Int) ≤ 7 ∧
    (update_token_count initialSession 7).total_tokens_used
      = initialSession.total_tokens_used + 7 :=
  ⟨by decide, (C8_token_accumulation_amended initialSession 7 (by decide)).1⟩

/-- Claim C9: constructing the client with an absent or empty credential
fails immediately with the configuration error raised by `config.py`, before
any gateway interaction (construction takes no gateway); with a non-empty
credential it proceeds only with the resolved credential and model
identifier. -/
theorem C9_construction_fails_fast (k : String) (m : Option String) :
    init_gemini_client none m
      = Except.error (ConfigError.missingApiKey "GEMINI_API_KEY is not set in .env") ∧
    init_gemini_client (some "") m
      = Except.error (ConfigError.missingApiKey "GEMINI_API_KEY is not set in .env") ∧
    init_gemini_client (some k) m
      = (if k = "" then
          Except.error (ConfigError.missingApiKey "GEMINI_API_KEY is not set in .env")
         else
          Except.ok { api_key := k
                      model_name := m.getD "gemini-2.5-flash"
                      system_instruction := get_system_prompt }) := by
  refine ⟨rfl, rfl, ?_⟩
  unfold init_gemini_client load_config
  by_cases hk : k = ""
  · subst hk
    simp
  · simp [hk]

/-- Claim C10: `clear` is idempotent, clearing an already-empty session is
the identity, and after any clear the session is empty with both counters
zero. -/
theorem C10_clear_idempotent (s : ChatSession) :
    ChatSession.clear (ChatSession.clear s) = ChatSession.clear s ∧
    ChatSession.clear initialSession = initialSession ∧
    is_empty (ChatSession.clear s) = true ∧
    (ChatSession.clear s).messages = [] ∧
    (ChatSession.clear s).total_user_messages = 0 ∧
    (ChatSession.clear s).total_tokens_used = 0 :=
  ⟨rfl, rfl, rfl, rfl, rfl, rfl⟩

end CareerIQ
